import Mathlib

/-!
Verification of the Broadster-Live relay server (src/server.js) against its
specification.  The JavaScript source is shallowly embedded: the HTTP handler
for POST /api/suggest becomes a pure function from the request body and a
functional model of the Vertex AI backend to the HTTP response together with
the list of prompts passed to the backend; the WebSocket event handlers become
functions from their events to the list of side effects they emit; the startup
configuration check becomes a function from the environment to a startup
outcome.  Definitions follow the source line by line; comments point at the
lines of src/server.js they embed.
-/

namespace Broadster

/-- Model of a JavaScript value as it can occur for the field text of a parsed
JSON request body, plus undefined for an absent field.  Numbers are modelled as
integers (the claims only exercise the integer 0); object stands for any plain
object value. -/
inductive JsValue
  | undefined
  | null
  | bool (b : Bool)
  | num (n : Int)
  | str (s : String)
  | object
deriving DecidableEq

/-- JavaScript truthiness of a value: undefined, null, false, 0 and the empty
string are falsy, everything else (in this model) is truthy.  This is the test
performed by the guard if (!transcript) at src/server.js line 90. -/
def truthy : JsValue → Bool
  | JsValue.undefined => false
  | JsValue.null => false
  | JsValue.bool b => b
  | JsValue.num n => !(n == 0)
  | JsValue.str s => !(s == "")
  | JsValue.object => true

/-- JavaScript string conversion String(v), as performed by the template
literal interpolation at src/server.js line 93. -/
def jsToString : JsValue → String
  | JsValue.undefined => "undefined"
  | JsValue.null => "null"
  | JsValue.bool b => if b then "true" else "false"
  | JsValue.num n => toString n
  | JsValue.str s => s
  | JsValue.object => "[object Object]"

/-- One part of a generative-model content block; the text field may be
absent (undefined in JavaScript). -/
structure Part where
  text : Option String
deriving DecidableEq

/-- A content block: its parts array may itself be absent. -/
structure Content where
  parts : Option (List Part)
deriving DecidableEq

/-- One candidate of a generative-model response; its content may be absent. -/
structure Candidate where
  content : Option Content
deriving DecidableEq

/-- A generative-model response (also the shape of one streamed chunk): the
candidates array may be absent. -/
structure GenerateContentResponse where
  candidates : Option (List Candidate)
deriving DecidableEq

/-- Embedding of the optional-chaining access
item.candidates?.[0]?.content?.parts?.[0]?.text followed by the truthiness
test of src/server.js line 54: the transcript text of a streamed item, or none
when any link of the chain is absent or the text is empty (falsy). -/
def extractTranscript (item : GenerateContentResponse) : Option String :=
  match item.candidates with
  | none => none
  | some cs =>
    match cs.head? with
    | none => none
    | some c =>
      match c.content with
      | none => none
      | some ct =>
        match ct.parts with
        | none => none
        | some ps =>
          match ps.head? with
          | none => none
          | some p =>
            match p.text with
            | none => none
            | some t => if t == "" then none else some t

/-- Placeholder for the TypeError message raised by candidates[0] when the
candidates array is absent (src/server.js line 97). -/
def msgIndexOfUndefined : String :=
  "TypeError: Cannot read properties of undefined (reading 0)"

/-- Placeholder for the TypeError message raised by reading content of an
undefined first candidate (src/server.js line 97). -/
def msgContentOfUndefined : String :=
  "TypeError: Cannot read properties of undefined (reading content)"

/-- Placeholder for the TypeError message raised by reading parts of an
undefined content (src/server.js line 97). -/
def msgPartsOfUndefined : String :=
  "TypeError: Cannot read properties of undefined (reading parts)"

/-- Placeholder for the TypeError message raised by parts[0] when the parts
array is absent (src/server.js line 97). -/
def msgPartsIndexOfUndefined : String :=
  "TypeError: Cannot read properties of undefined (reading 0 of parts)"

/-- Placeholder for the TypeError message raised by reading text of an
undefined first part (src/server.js line 97). -/
def msgTextOfUndefined : String :=
  "TypeError: Cannot read properties of undefined (reading text)"

/-- Placeholder for the TypeError message raised by calling trim on an
undefined suggestion text (src/server.js line 98). -/
def msgTrimOfUndefined : String :=
  "TypeError: Cannot read properties of undefined (reading trim)"

/-- Embedding of the unguarded access chain
result.response.candidates[0].content.parts[0].text of src/server.js line 97
(followed by the trim call of line 98): each absent link throws a TypeError,
modelled as an error carrying that TypeError message. -/
def extractSuggestion (r : GenerateContentResponse) : Except String String :=
  match r.candidates with
  | none => Except.error msgIndexOfUndefined
  | some cs =>
    match cs.head? with
    | none => Except.error msgContentOfUndefined
    | some c =>
      match c.content with
      | none => Except.error msgPartsOfUndefined
      | some ct =>
        match ct.parts with
        | none => Except.error msgPartsIndexOfUndefined
        | some ps =>
          match ps.head? with
          | none => Except.error msgTextOfUndefined
          | some p =>
            match p.text with
            | none => Except.error msgTrimOfUndefined
            | some t => Except.ok t

/-- Whether the response has a first candidate whose first content part
carries a text field, i.e. whether the access chain of src/server.js line 97
succeeds. -/
def hasFirstText (r : GenerateContentResponse) : Bool :=
  match r.candidates with
  | some (c :: _) =>
    match c.content with
    | some ct =>
      match ct.parts with
      | some (p :: _) => p.text.isSome
      | _ => false
    | none => false
  | _ => false

/-- Lower-case hexadecimal digit, used by the JSON escaping of control
characters. -/
def hexDigit (n : Nat) : Char :=
  if n < 10 then Char.ofNat (48 + n) else Char.ofNat (87 + n)

/-- JSON string escaping of a single character, as JSON.stringify performs
it. -/
def jsonEscapeChar (c : Char) : String :=
  if c == Char.ofNat 34 then "\\\""
  else if c == Char.ofNat 92 then "\\\\"
  else if c == Char.ofNat 8 then "\\b"
  else if c == Char.ofNat 9 then "\\t"
  else if c == Char.ofNat 10 then "\\n"
  else if c == Char.ofNat 12 then "\\f"
  else if c == Char.ofNat 13 then "\\r"
  else if c.toNat < 32 then
    "\\u00" ++ String.singleton (hexDigit (c.toNat / 16))
      ++ String.singleton (hexDigit (c.toNat % 16))
  else String.singleton c

/-- JSON serialization of a string value, as JSON.stringify performs it. -/
def jsonQuote (s : String) : String :=
  "\"" ++ String.join (s.toList.map jsonEscapeChar) ++ "\""

/-- Embedding of JSON.stringify applied to the object with fields type
(value transcript) and data (the transcript text), src/server.js line 57. -/
def stringifyTranscript (t : String) : String :=
  "\x7b\"type\":\"transcript\",\"data\":" ++ jsonQuote t ++ "\x7d"

/-- A side effect the WebSocket connection handler can perform: log a line,
send a text frame to the browser, close the browser socket (with an optional
close code), send an audio chunk to the backend stream, or close the backend
stream. -/
inductive Effect
  | log (msg : String)
  | wsSend (frame : String)
  | wsClose (code : Option Nat)
  | backendSendChunk (chunk : List Nat)
  | backendCloseStream
deriving DecidableEq

/-- The ws library readyState constant OPEN, compared against at
src/server.js line 56. -/
def wsOPEN : Nat := 1

/-- One iteration of the downstream for-await loop (src/server.js lines
53-59): when the streamed item carries truthy transcript text and the socket
readyState is OPEN, send the serialized transcript frame, otherwise do
nothing. -/
def downstreamStep (readyState : Nat) (item : GenerateContentResponse) :
    List Effect :=
  match extractTranscript item with
  | some t =>
    if readyState == wsOPEN then [Effect.wsSend (stringifyTranscript t)]
    else []
  | none => []

/-- The downstream for-await loop over the streamed items (src/server.js
lines 53-60), each paired with the socket readyState observed at that
iteration.  On normal stream end the loop performs nothing further. -/
def downstreamLoop : List (Nat × GenerateContentResponse) → List Effect
  | [] => []
  | (st, item) :: rest => downstreamStep st item ++ downstreamLoop rest

/-- Embedding of the catch handler of the downstream task (src/server.js
lines 61-63): a stream read error is only logged. -/
def onStreamError (m : String) : List Effect :=
  [Effect.log ("Geminiストリーム受信エラー:" ++ m)]

/-- Embedding of the ws message handler (src/server.js lines 67-78): its body
consists only of comments, so no effect is performed for an inbound frame. -/
def onMessage ( _message : List Nat) : List Effect := []

/-- Embedding of the ws close handler (src/server.js line 84): it only logs
the disconnect. -/
def onClose : List Effect :=
  [Effect.log "クライアントが切断しました。"]

/-- Embedding of the connection handler (src/server.js lines 40-85).  The
argument is the outcome of opening the backend streaming session (startChat
followed by sendMessageStream): on failure the catch block logs and calls
ws.close() with no arguments; on success the downstream task runs over the
streamed items, each paired with the readyState observed at its iteration. -/
def onConnection
    (openResult : Except String (List (Nat × GenerateContentResponse))) :
    List Effect :=
  Effect.log "クライアント (ブラウザ) が接続しました。" ::
  match openResult with
  | Except.error m =>
    [Effect.log ("Gemini Live APIとの接続エラー:" ++ m), Effect.wsClose none]
  | Except.ok steps =>
    Effect.log "Gemini Live API との接続を開始しました。" ::
      downstreamLoop steps

/-- Whether an effect closes the browser WebSocket. -/
def isWsClose : Effect → Bool
  | Effect.wsClose _ => true
  | _ => false

/-- Whether an effect closes the backend stream. -/
def isBackendCloseStream : Effect → Bool
  | Effect.backendCloseStream => true
  | _ => false

/-- The text frames a list of effects sends to the browser, in order. -/
def sentFrames (effs : List Effect) : List String :=
  effs.filterMap fun e =>
    match e with
    | Effect.wsSend f => some f
    | _ => none

/-- The audio chunks a list of effects forwards to the backend stream, in
order. -/
def sentChunks (effs : List Effect) : List (List Nat) :=
  effs.filterMap fun e =>
    match e with
    | Effect.backendSendChunk c => some c
    | _ => none

/-- Whether a list of effects closes the backend stream. -/
def closesBackendStream (effs : List Effect) : Bool :=
  effs.any isBackendCloseStream

/-- Whether a list of effects closes the browser WebSocket. -/
def closesWebSocket (effs : List Effect) : Bool :=
  effs.any isWsClose

/-- Whether a list of effects closes the browser WebSocket with an explicit
non-normal (error) close code, the behaviour claimed for the backend-open
failure path. -/
def closedWithErrorStatus (effs : List Effect) : Bool :=
  effs.any fun e =>
    match e with
    | Effect.wsClose (some c) => !(c == 1000)
    | _ => false

/-- Head of the prompt template of src/server.js line 93, up to the opening
quote around the interpolated transcript. -/
def promptHead : String :=
  "あなたは優秀なラジオ番組の放送作家です。以下のトーク内容を踏まえ、次に盛り上がる話題のアイデアを3つ提案してください。# トーク内容: \""

/-- Tail of the prompt template of src/server.js line 93, from the closing
quote around the interpolated transcript. -/
def promptTail : String :=
  "\" # 次の話題の提案:"

/-- The prompt built at src/server.js line 93: the template with the
transcript value interpolated (JavaScript string conversion) between the
head and the tail. -/
def suggestPrompt (transcript : JsValue) : String :=
  promptHead ++ jsToString transcript ++ promptTail

/-- Whitespace as JavaScript String.prototype.trim removes it (the ASCII
whitespace characters; the Unicode space classes that trim also strips are
outside the scope of the claims checked here). -/
def jsWhitespace (c : Char) : Bool :=
  c == ' ' || c == '\t' || c == '\n' || c == '\r'
    || c == Char.ofNat 11 || c == Char.ofNat 12

/-- Embedding of the JavaScript call suggestion.trim() of src/server.js line
98: drop leading and trailing whitespace. -/
def jsTrim (s : String) : String :=
  String.mk (((s.data.dropWhile jsWhitespace).reverse.dropWhile
    jsWhitespace).reverse)

/-- Body of an HTTP response of the suggestion endpoint: either a suggestion
object or an error object. -/
inductive RespBody
  | suggestion (s : String)
  | errorMsg (s : String)
deriving DecidableEq

/-- An HTTP response: status code and JSON body. -/
structure HttpResponse where
  status : Nat
  body : RespBody
deriving DecidableEq

/-- Functional model of the backend completion call generateContent: a prompt
is mapped either to a thrown error message or to a response. -/
abbrev Backend := String → Except String GenerateContentResponse

/-- Embedding of the POST /api/suggest handler (src/server.js lines 88-103).
The first component is the HTTP response produced; the second is the list of
prompts passed to the backend completion call, in order, so that its length
counts the backend invocations. -/
def suggestHandler (backend : Backend) (text : JsValue) :
    HttpResponse × List String :=
  if !(truthy text) then (⟨400, RespBody.errorMsg "No text"⟩, [])
  else
    let prompt := suggestPrompt text
    match backend prompt with
    | Except.error m => (⟨500, RespBody.errorMsg m⟩, [prompt])
    | Except.ok r =>
      match extractSuggestion r with
      | Except.error m => (⟨500, RespBody.errorMsg m⟩, [prompt])
      | Except.ok s => (⟨200, RespBody.suggestion (jsTrim s)⟩, [prompt])

/-- A concrete backend response whose first candidate carries the text
" 1. foo ", used to instantiate the success-path theorems. -/
def sampleResponse : GenerateContentResponse :=
  ⟨some [⟨some ⟨some [⟨some " 1. foo "⟩]⟩⟩]⟩

/-- Process environment as read at src/server.js lines 8-11 and 34: each
variable is either absent or a string. -/
structure Env where
  GOOGLE_PROJECT_ID : Option String
  GOOGLE_LOCATION : Option String
  GOOGLE_CREDENTIALS_JSON : Option String
  PORT : Option String
deriving DecidableEq

/-- Truthiness of an environment variable: absent and empty are falsy. -/
def optTruthy : Option String → Bool
  | none => false
  | some s => !(s == "")

/-- Embedding of the JavaScript default idiom value || fallback applied to an
environment variable (src/server.js lines 9 and 34). -/
def jsOr (o : Option String) (d : String) : String :=
  match o with
  | none => d
  | some s => if s == "" then d else s

/-- The configuration the process runs with once startup succeeds. -/
structure Config where
  project : String
  location : String
  credentialsJson : String
deriving DecidableEq

/-- Outcome of startup: either the process exits with a diagnostic and a
status code before any listener is bound, or it binds the listener on the
given port with the given configuration. -/
inductive StartupOutcome
  | exit (diag : String) (code : Nat)
  | listen (cfg : Config) (port : String)
deriving DecidableEq

/-- The fatal diagnostic printed at src/server.js line 14. -/
def cfgErrMsg : String :=
  "エラー: 環境変数 (GOOGLE_PROJECT_ID, GOOGLE_CREDENTIALS_JSON) が設定されていません。"

/-- Embedding of the startup sequence of src/server.js lines 8-16 and
106-108: read the environment, default the location and the port, and exit
with status 1 after the diagnostic when the project id or the credentials
JSON is falsy; otherwise bind the listener. -/
def startup (env : Env) : StartupOutcome :=
  let PROJECT_ID := env.GOOGLE_PROJECT_ID
  let LOCATION := jsOr env.GOOGLE_LOCATION "asia-northeast1"
  let CREDENTIALS_JSON := env.GOOGLE_CREDENTIALS_JSON
  if !(optTruthy PROJECT_ID) || !(optTruthy CREDENTIALS_JSON) then
    StartupOutcome.exit cfgErrMsg 1
  else
    StartupOutcome.listen
      ⟨PROJECT_ID.getD "", LOCATION, CREDENTIALS_JSON.getD ""⟩
      (jsOr env.PORT "3000")

theorem downstreamStep_no_wsClose (st : Nat) (item : GenerateContentResponse) :
    closesWebSocket (downstreamStep st item) = false := by
  unfold downstreamStep
  cases extractTranscript item with
  | none => rfl
  | some t =>
    by_cases h : (st == wsOPEN) = true <;>
      simp [h, closesWebSocket, isWsClose]

theorem closesWebSocket_append (a b : List Effect) :
    closesWebSocket (a ++ b) = (closesWebSocket a || closesWebSocket b) := by
  simp [closesWebSocket]

/-- Claim C1: the spec requires every inbound WebSocket audio frame to be
forwarded, suitably encoded, to the backend streaming session; the embedded
message handler of src/server.js lines 67-78 instead performs no effect at
all (its body consists only of comments), so no frame is ever forwarded and
in particular no audio chunk is sent to the backend. -/
theorem c1_message_frames_not_forwarded (message : List Nat) :
    onMessage message = [] ∧ sentChunks (onMessage message) = [] :=
  ⟨rfl, rfl⟩

/-- Claim C2: the spec requires that closing either endpoint of a session
closes the other; in the embedded code the browser-close handler only logs
(it never closes the backend stream), the backend-stream error handler only
logs (it never closes the WebSocket), and the downstream loop, which is all
that runs after stream end, never closes the WebSocket either. -/
theorem c2_no_counterpart_close_in_code :
    closesBackendStream onClose = false
    ∧ (∀ m : String, closesWebSocket (onStreamError m) = false)
    ∧ (∀ steps : List (Nat × GenerateContentResponse),
        closesWebSocket (downstreamLoop steps) = false) := by
  refine ⟨rfl, fun m => rfl, fun steps => ?_⟩
  induction steps with
  | nil => rfl
  | cons hd tl ih =>
    obtain ⟨st, item⟩ := hd
    rw [downstreamLoop, closesWebSocket_append, downstreamStep_no_wsClose, ih]
    rfl

/-- Claim C3: the downstream loop of src/server.js lines 53-60 sends to the
browser exactly the serializations of the transcript texts of the streamed
items, in the backend emission order, and exactly of those items observed
while the WebSocket readyState is OPEN; items without truthy transcript text
and items observed while the socket is not open produce no send. -/
theorem c3_downstream_order (steps : List (Nat × GenerateContentResponse)) :
    downstreamLoop steps
      = (((steps.filter fun p => p.1 == wsOPEN).map Prod.snd).filterMap
          extractTranscript).map
          fun t => Effect.wsSend (stringifyTranscript t) := by
  induction steps with
  | nil => rfl
  | cons hd tl ih =>
    obtain ⟨st, item⟩ := hd
    by_cases hst : (st == wsOPEN) = true
    · cases hext : extractTranscript item <;>
        simp [downstreamLoop, downstreamStep, hst, hext, ih]
    · cases hext : extractTranscript item <;>
        simp [downstreamLoop, downstreamStep, hst, hext, ih]

/-- Claim C8 counterexample: on the backend-open failure path the code calls
ws.close() with no arguments (src/server.js line 82), so the connection
handler never closes the socket with an explicit non-normal (error) close
code, contrary to the claim. -/
theorem c8_counterexample :
    closedWithErrorStatus (onConnection (Except.error "network failure"))
      = false := rfl

/-- Claim C8 as amended: when opening the backend streaming session fails,
the connection handler logs the error and closes the browser WebSocket via a
plain ws.close() carrying no close code, and no forwarding in either
direction is performed for that session. -/
theorem c8_failed_open_default_close (m : String) :
    onConnection (Except.error m)
      = [Effect.log "クライアント (ブラウザ) が接続しました。",
         Effect.log ("Gemini Live APIとの接続エラー:" ++ m),
         Effect.wsClose none]
    ∧ closesWebSocket (onConnection (Except.error m)) = true
    ∧ sentFrames (onConnection (Except.error m)) = []
    ∧ sentChunks (onConnection (Except.error m)) = [] :=
  ⟨rfl, rfl, rfl, rfl⟩

theorem extractSuggestion_error_of_not_hasFirstText
    (r : GenerateContentResponse) (hx : hasFirstText r = false) :
    ∃ m, extractSuggestion r = Except.error m := by
  obtain ⟨cs⟩ := r
  cases cs with
  | none => exact ⟨_, rfl⟩
  | some l =>
    cases l with
    | nil => exact ⟨_, rfl⟩
    | cons c rest =>
      obtain ⟨ct⟩ := c
      cases ct with
      | none => exact ⟨_, rfl⟩
      | some content =>
        obtain ⟨ps⟩ := content
        cases ps with
        | none => exact ⟨_, rfl⟩
        | some pl =>
          cases pl with
          | nil => exact ⟨_, rfl⟩
          | cons p prest =>
            obtain ⟨tx⟩ := p
            cases tx with
            | none => exact ⟨_, rfl⟩
            | some t => simp [hasFirstText] at hx

/-- Claim C4: for a request body whose text field is a non-empty string s,
the suggest handler invokes the backend exactly once, with the template
prompt in which s occurs verbatim, and when the backend succeeds with a
response from which a suggestion text t is extracted it answers 200 with the
trimmed t as the suggestion. -/
theorem c4_suggest_success (backend : Backend) (s : String)
    (r : GenerateContentResponse) (t : String)
    (hne : s ≠ "")
    (hb : backend (suggestPrompt (JsValue.str s)) = Except.ok r)
    (ht : extractSuggestion r = Except.ok t) :
    suggestHandler backend (JsValue.str s)
      = (⟨200, RespBody.suggestion (jsTrim t)⟩,
         [suggestPrompt (JsValue.str s)])
    ∧ ∃ a b, suggestPrompt (JsValue.str s) = a ++ s ++ b := by
  have htr : truthy (JsValue.str s) = true := by
    simp [truthy]
    exact hne
  refine ⟨?_, ⟨promptHead, promptTail, rfl⟩⟩
  simp [suggestHandler, htr, hb, ht]

/-- Witness for claim C4 at a concrete backend and input. -/
theorem c4_suggest_success_witness :
    suggestHandler (fun _ => Except.ok sampleResponse) (JsValue.str "hello")
      = (⟨200, RespBody.suggestion "1. foo"⟩,
         [suggestPrompt (JsValue.str "hello")])
    ∧ ∃ a b, suggestPrompt (JsValue.str "hello") = a ++ "hello" ++ b := by
  have h := c4_suggest_success (fun _ => Except.ok sampleResponse) "hello"
    sampleResponse " 1. foo " (by decide) rfl rfl
  exact ⟨h.1.trans (by decide), h.2⟩

/-- Claim C5: for a request body whose text field is missing or the empty
string, the suggest handler answers 400 with the error body No text and
performs zero backend calls. -/
theorem c5_missing_or_empty_text (backend : Backend) (text : JsValue)
    (h : text = JsValue.undefined ∨ text = JsValue.str "") :
    suggestHandler backend text = (⟨400, RespBody.errorMsg "No text"⟩, []) := by
  rcases h with h | h <;> subst h <;> rfl

/-- Witness for claim C5 at a missing text field. -/
theorem c5_missing_or_empty_text_witness :
    suggestHandler (fun _ => Except.error "e") JsValue.undefined
      = (⟨400, RespBody.errorMsg "No text"⟩, []) :=
  c5_missing_or_empty_text (fun _ => Except.error "e") JsValue.undefined
    (Or.inl rfl)

/-- Claim C6: for a request with truthy text, when the backend completion
call fails with message m the suggest handler answers 500 with the error
body m, after exactly one backend invocation and no retry. -/
theorem c6_backend_failure (backend : Backend) (text : JsValue) (m : String)
    (htr : truthy text = true)
    (hb : backend (suggestPrompt text) = Except.error m) :
    suggestHandler backend text
      = (⟨500, RespBody.errorMsg m⟩, [suggestPrompt text]) := by
  simp [suggestHandler, htr, hb]

/-- Witness for claim C6 at a concrete failing backend. -/
theorem c6_backend_failure_witness :
    suggestHandler (fun _ => Except.error "quota exceeded") (JsValue.str "hi")
      = (⟨500, RespBody.errorMsg "quota exceeded"⟩,
         [suggestPrompt (JsValue.str "hi")]) :=
  c6_backend_failure (fun _ => Except.error "quota exceeded")
    (JsValue.str "hi") "quota exceeded" (by decide) rfl

/-- Claim C7: when the project id or the credentials JSON is absent from the
environment, startup exits with status 1 after the fatal diagnostic and no
listener is bound; the location is optional, and when it is absent a
successful startup runs with the default location asia-northeast1. -/
theorem c7_startup_config (env : Env) :
    ((env.GOOGLE_PROJECT_ID = none ∨ env.GOOGLE_CREDENTIALS_JSON = none) →
      startup env = StartupOutcome.exit cfgErrMsg 1)
    ∧ (env.GOOGLE_LOCATION = none →
        ∀ cfg port, startup env = StartupOutcome.listen cfg port →
          cfg.location = "asia-northeast1") := by
  constructor
  · rintro (h | h) <;> simp [startup, h, optTruthy]
  · intro hloc cfg port h
    simp only [startup, hloc, jsOr] at h
    split at h
    · exact absurd h (by simp)
    · rw [StartupOutcome.listen.injEq] at h
      rw [← h.1]

/-- Witness for claim C7: a concrete environment missing both required
variables exits with status 1, and a concrete environment with the location
absent runs with the default location. -/
theorem c7_startup_config_witness :
    startup ⟨none, none, some "cred", none⟩ = StartupOutcome.exit cfgErrMsg 1
    ∧ (Config.mk "proj" "asia-northeast1" "cred").location
        = "asia-northeast1" :=
  ⟨(c7_startup_config ⟨none, none, some "cred", none⟩).1 (Or.inl rfl),
   (c7_startup_config ⟨some "proj", none, some "cred", none⟩).2 rfl
     ⟨"proj", "asia-northeast1", "cred"⟩ "3000" rfl⟩

/-- Claim C9: validation of the text field is by JavaScript truthiness, not
by string type: any falsy text (in particular the number 0, false and null)
is answered 400 No text with zero backend calls, while any truthy value,
string or not, is accepted and its string conversion is embedded into the
prompt passed to the backend. -/
theorem c9_truthiness_validation (backend : Backend) (v : JsValue) :
    (truthy v = false →
      suggestHandler backend v = (⟨400, RespBody.errorMsg "No text"⟩, []))
    ∧ (truthy v = true →
      (suggestHandler backend v).2 = [suggestPrompt v]
      ∧ ∃ a b, suggestPrompt v = a ++ jsToString v ++ b)
    ∧ truthy (JsValue.num 0) = false
    ∧ truthy (JsValue.bool false) = false
    ∧ truthy JsValue.null = false := by
  refine ⟨?_, ?_, rfl, rfl, rfl⟩
  · intro h
    simp [suggestHandler, h]
  · intro h
    refine ⟨?_, ⟨promptHead, promptTail, rfl⟩⟩
    cases hb : backend (suggestPrompt v) with
    | error m => simp [suggestHandler, h, hb]
    | ok r =>
      cases hx : extractSuggestion r with
      | error m => simp [suggestHandler, h, hb, hx]
      | ok t => simp [suggestHandler, h, hb, hx]

/-- Witness for claim C9: the number 0 is rejected with 400 and no backend
call, while the truthy non-string value true is accepted and the backend is
called with the prompt embedding its string conversion. -/
theorem c9_truthiness_validation_witness :
    suggestHandler (fun _ => Except.error "e") (JsValue.num 0)
      = (⟨400, RespBody.errorMsg "No text"⟩, [])
    ∧ (suggestHandler (fun _ => Except.error "e") (JsValue.bool true)).2
        = [suggestPrompt (JsValue.bool true)] :=
  ⟨(c9_truthiness_validation (fun _ => Except.error "e") (JsValue.num 0)).1
      rfl,
   ((c9_truthiness_validation (fun _ => Except.error "e")
      (JsValue.bool true)).2.1 rfl).1⟩

/-- Claim C10: for a request with truthy text, when the backend call
succeeds but the response has no first candidate whose first content part
carries text, the extraction chain throws inside the same try block and the
handler answers 500 with that TypeError message after one backend call,
indistinguishable at the interface from a backend failure carrying the same
message. -/
theorem c10_extraction_failure (backend : Backend) (text : JsValue)
    (r : GenerateContentResponse)
    (htr : truthy text = true)
    (hb : backend (suggestPrompt text) = Except.ok r)
    (hx : hasFirstText r = false) :
    ∃ m, extractSuggestion r = Except.error m
      ∧ suggestHandler backend text
          = (⟨500, RespBody.errorMsg m⟩, [suggestPrompt text])
      ∧ ∀ backend2 : Backend,
          backend2 (suggestPrompt text) = Except.error m →
          suggestHandler backend2 text = suggestHandler backend text := by
  obtain ⟨m, hm⟩ := extractSuggestion_error_of_not_hasFirstText r hx
  refine ⟨m, hm, ?_, ?_⟩
  · simp [suggestHandler, htr, hb, hm]
  · intro b2 hb2
    simp [suggestHandler, htr, hb, hm, hb2]

/-- Witness for claim C10 at a backend returning a response with no
candidates. -/
theorem c10_extraction_failure_witness :
    ∃ m, extractSuggestion (⟨none⟩ : GenerateContentResponse)
          = Except.error m
      ∧ suggestHandler (fun _ => Except.ok ⟨none⟩) (JsValue.str "hi")
          = (⟨500, RespBody.errorMsg m⟩, [suggestPrompt (JsValue.str "hi")])
      ∧ ∀ backend2 : Backend,
          backend2 (suggestPrompt (JsValue.str "hi")) = Except.error m →
          suggestHandler backend2 (JsValue.str "hi")
            = suggestHandler (fun _ => Except.ok ⟨none⟩)
                (JsValue.str "hi") :=
  c10_extraction_failure (fun _ => Except.ok ⟨none⟩) (JsValue.str "hi")
    ⟨none⟩ (by decide) rfl rfl

end Broadster
